import Mathlib

/-!
Verification development for the lab-controller repository: the register
float codec and line-telemetry parser of the device drivers, and the
connect / read / setpoint / monitoring logic of the orchestrating
Controller, shallowly embedded from the Python source.
-/

namespace LabController

/-- Python exceptions that the embedded code can raise. -/
inductive PyExn where
  | ioError
  | attributeError
  | typeError
  | runtimeError
  | valueError
  deriving DecidableEq, Repr

/-- Python values stored in a parsed-telemetry dict or in a Reading
channel: floats (modelled as rationals) or strings. -/
inductive PyVal where
  | num (q : ℚ)
  | str (s : String)
  deriving DecidableEq, Repr

/-! ## Register float codec (VogtlinMFC._read_float / _write_float)

The two 16-bit registers carry the big-endian halves of the IEEE-754
float32 bit pattern: struct.pack of a float32-representable double is
exactly its 32-bit pattern, and the pattern-to-value map is injective,
so the value-level round trip of the source is the bit-level identity
proved here.  The embedding works on the 32-bit pattern as a Nat. -/

/-- The four bytes of struct.pack with the big-endian float32 format,
applied to the 32-bit pattern of the value. -/
def packBE32 (bits : ℕ) : List ℕ :=
  [bits / 2 ^ 24 % 256, bits / 2 ^ 16 % 256, bits / 2 ^ 8 % 256, bits % 256]

/-- struct.unpack with the big-endian two-unsigned-short format: the
byte string split into two 16-bit registers. -/
def unpackHH (bytes : List ℕ) : ℕ × ℕ :=
  match bytes with
  | [b0, b1, b2, b3] => (b0 * 256 + b1, b2 * 256 + b3)
  | _ => (0, 0)

/-- struct.pack with the big-endian two-unsigned-short format. -/
def packHH (hi lo : ℕ) : List ℕ :=
  [hi / 256 % 256, hi % 256, lo / 256 % 256, lo % 256]

/-- struct.unpack with the big-endian float32 format, kept at the level
of the 32-bit pattern. -/
def unpackBE32 (bytes : List ℕ) : ℕ :=
  match bytes with
  | [b0, b1, b2, b3] => b0 * 2 ^ 24 + b1 * 2 ^ 16 + b2 * 2 ^ 8 + b3
  | _ => 0

/-- VogtlinMFC._write_float: pack the value, split into two registers,
optionally swap the register order. -/
def write_float_regs (bits : ℕ) (swap : Bool) : ℕ × ℕ :=
  let regs := unpackHH (packBE32 bits)
  if swap then (regs.2, regs.1) else regs

/-- VogtlinMFC._read_float: optionally swap the two registers back, pack
them big-endian and reinterpret as a float32 bit pattern. -/
def read_float_regs (regs : ℕ × ℕ) (swap : Bool) : ℕ :=
  let regs := if swap then (regs.2, regs.1) else regs
  unpackBE32 (packHH regs.1 regs.2)

/-! ## Line telemetry parser (DewMaster.data_pattern / DewMaster.poll)

Executable embedding of re.search with the source pattern
  (?P<date>dd/dd/dd)\s+(?P<time>dd:dd:dd).*?DP\s*=\s*(?P<dp>[-\d.]+)\s*C.*?
  AT\s*=\s*(?P<at>[-\d.]+)\s*C.*?RH\s*=\s*(?P<rh>[-\d.]+)
Digits and whitespace are modelled over ASCII.  The lazy dot-scans do
not cross a newline; the character-class and whitespace repetitions are
deterministic here because the class excludes whitespace and the
literals that follow, so greedy maximal munch is complete. -/

/-- Python regex whitespace class, ASCII part. -/
def isSpaceCh (c : Char) : Bool :=
  c = ' ' || c = '\t' || c = '\n' || c = '\r' || c = '\x0b' || c = '\x0c'

/-- The character class of the numeric groups: minus, digits, dot. -/
def isClassCh (c : Char) : Bool :=
  c.isDigit || c = '-' || c = '.'

/-- Greedy whitespace-star: drop the maximal whitespace run. -/
def dropSpaces : List Char → List Char
  | [] => []
  | c :: cs => if isSpaceCh c then dropSpaces cs else c :: cs

/-- Whitespace-plus: at least one whitespace character, then maximal munch. -/
def takeSpaces1 : List Char → Option (List Char)
  | [] => none
  | c :: cs => if isSpaceCh c then some (dropSpaces cs) else none

/-- Match one literal character. -/
def expectChar (c : Char) : List Char → Option (List Char)
  | [] => none
  | x :: xs => if x = c then some xs else none

/-- Greedy maximal run of class characters, at least one. -/
def takeClass1 (cs : List Char) : Option (List Char × List Char) :=
  if (cs.span isClassCh).1 = [] then none else some (cs.span isClassCh)

/-- A labeled numeric field: two label letters, optional whitespace, an
equals sign, optional whitespace, then the numeric group. -/
def matchLabelNum (l1 l2 : Char) (cs : List Char) : Option (String × List Char) :=
  (expectChar l1 cs).bind fun r1 =>
    (expectChar l2 r1).bind fun r2 =>
      (expectChar '=' (dropSpaces r2)).bind fun r4 =>
        (takeClass1 (dropSpaces r4)).map fun p => (String.mk p.1, p.2)

/-- A labeled numeric field followed by optional whitespace and the
literal unit letter C (the DP and AT fields). -/
def matchNumC (l1 l2 : Char) (cs : List Char) : Option (String × List Char) :=
  (matchLabelNum l1 l2 cs).bind fun p =>
    (expectChar 'C' (dropSpaces p.2)).map fun r2 => (p.1, r2)

/-- Lazy dot-scan for the RH field: try at each position, moving right
without crossing a newline. -/
def scanRH : List Char → Option String
  | [] => none
  | c :: cs =>
    match matchLabelNum 'R' 'H' (c :: cs) with
    | some (g, _) => some g
    | none => if c = '\n' then none else scanRH cs

/-- The AT field followed by the RH scan, at a fixed position. -/
def tryAT (cs : List Char) : Option (String × String) :=
  (matchNumC 'A' 'T' cs).bind fun p =>
    (scanRH p.2).map fun rh => (p.1, rh)

/-- Lazy dot-scan for the AT field; continuation failure moves the scan
one position right, as regex backtracking does. -/
def scanAT : List Char → Option (String × String)
  | [] => none
  | c :: cs =>
    match tryAT (c :: cs) with
    | some x => some x
    | none => if c = '\n' then none else scanAT cs

/-- The DP field followed by the AT scan, at a fixed position. -/
def tryDP (cs : List Char) : Option (String × String × String) :=
  (matchNumC 'D' 'P' cs).bind fun p =>
    (scanAT p.2).map fun q => (p.1, q.1, q.2)

/-- Lazy dot-scan for the DP field. -/
def scanDP : List Char → Option (String × String × String)
  | [] => none
  | c :: cs =>
    match tryDP (c :: cs) with
    | some x => some x
    | none => if c = '\n' then none else scanDP cs

/-- The named groups of a successful data_pattern match. -/
structure RawGroups where
  date : String
  time : String
  dp : String
  atv : String
  rh : String
  deriving DecidableEq, Repr

/-- Two digits, a slash, two digits, a slash, two digits. -/
def matchDate : List Char → Option (String × List Char)
  | a :: b :: s1 :: c :: d :: s2 :: e :: f :: rest =>
    if a.isDigit && b.isDigit && s1 = '/' && c.isDigit && d.isDigit
        && s2 = '/' && e.isDigit && f.isDigit then
      some (String.mk [a, b, s1, c, d, s2, e, f], rest)
    else none
  | _ => none

/-- Two digits, a colon, two digits, a colon, two digits. -/
def matchTime : List Char → Option (String × List Char)
  | a :: b :: s1 :: c :: d :: s2 :: e :: f :: rest =>
    if a.isDigit && b.isDigit && s1 = ':' && c.isDigit && d.isDigit
        && s2 = ':' && e.isDigit && f.isDigit then
      some (String.mk [a, b, s1, c, d, s2, e, f], rest)
    else none
  | _ => none

/-- The whole pattern anchored at one start position. -/
def matchFrom (cs : List Char) : Option RawGroups :=
  (matchDate cs).bind fun pd =>
    (takeSpaces1 pd.2).bind fun r2 =>
      (matchTime r2).bind fun pt =>
        (scanDP pt.2).map fun q => ⟨pd.1, pt.1, q.1, q.2.1, q.2.2⟩

/-- re.search over the line: leftmost start position with a match. -/
def searchTelem : List Char → Option RawGroups
  | [] => none
  | c :: cs =>
    match matchFrom (c :: cs) with
    | some g => some g
    | none => searchTelem cs

/-- Digits to a natural number. -/
def digitsVal (cs : List Char) : ℕ :=
  cs.foldl (fun acc c => acc * 10 + (c.toNat - '0'.toNat)) 0

/-- Python float() restricted to the strings the numeric character class
can produce: an optional leading minus, digits with at most one dot and
at least one digit; anything else raises ValueError (returns none). -/
def pyFloatCore (cs : List Char) : Option ℚ :=
  let p := cs.span Char.isDigit
  match p.2 with
  | [] => if p.1 = [] then none else some (digitsVal p.1)
  | '.' :: frac =>
    if frac.all Char.isDigit && !(p.1 = [] && frac = []) then
      some ((digitsVal p.1 : ℚ) + (digitsVal frac : ℚ) / (10 : ℚ) ^ frac.length)
    else none
  | _ => none

/-- Python float() on a matched numeric group. -/
def pyFloat (s : String) : Option ℚ :=
  match s.toList with
  | '-' :: rest => (pyFloatCore rest).map Neg.neg
  | cs => pyFloatCore cs

/-- The dict comprehension of DewMaster.poll: groupdict in group order,
with the dp, at and rh groups converted by float(); a group that float()
rejects raises ValueError. -/
def pollDict (g : RawGroups) : Except PyExn (List (String × PyVal)) :=
  match pyFloat g.dp, pyFloat g.atv, pyFloat g.rh with
  | some dp, some atv, some rh =>
    .ok [("date", .str g.date), ("time", .str g.time),
         ("dp", .num dp), ("at", .num atv), ("rh", .num rh)]
  | _, _, _ => .error .valueError

/-- The line loop of DewMaster.poll: the first line whose search
matches is converted; no matching line yields None. -/
def pollLines : List String → Except PyExn (Option (List (String × PyVal)))
  | [] => .ok none
  | l :: ls =>
    match searchTelem l.toList with
    | some g => (pollDict g).map some
    | none => pollLines ls

/-- Presence of a labeled numeric field anywhere in the line: some
suffix of the line starts with the two label letters, optional
whitespace, an equals sign, optional whitespace and a numeric group. -/
def hasLabeledField (l1 l2 : Char) (cs : List Char) : Bool :=
  cs.tails.any fun s => (matchLabelNum l1 l2 s).isSome

/-! ## Device driver state (VogtlinMFC, DewMaster)

The serial environment of one monitoring cycle is summarized per
device: for an MFC, the decoded-float response (or raised exception)
that each two-register read at a base address would produce; for the
hygrometer, whether its port is open and which lines arrive in the poll
window. -/

/-- One cycle's responses of a connected minimalmodbus instrument: the
outcome of read_registers at each base address, already decoded by
read_float_regs (VogtlinMFC._read_float). -/
structure InstrBehavior where
  readFloatAt : ℕ → Except PyExn ℚ

/-- VogtlinMFC register map (base addresses, 16-bit units). -/
def REG_flow : ℕ := 0x0000
/-- VogtlinMFC register map: the setpoint base address. -/
def REG_setpoint : ℕ := 0x0006

/-- A two-register float read on an MFC whose instrument attribute may
still be None (connect failed): None.read_registers raises
AttributeError. -/
def mfc_read_float (inst : Option InstrBehavior) (addr : ℕ) : Except PyExn ℚ :=
  match inst with
  | none => .error .attributeError
  | some b => b.readFloatAt addr

/-- VogtlinMFC.get_flow. -/
def mfc_get_flow (inst : Option InstrBehavior) : Except PyExn ℚ :=
  mfc_read_float inst REG_flow

/-- VogtlinMFC.get_setpoint. -/
def mfc_get_setpoint (inst : Option InstrBehavior) : Except PyExn ℚ :=
  mfc_read_float inst REG_setpoint

/-- VogtlinMFC has no method named set_flow: its setter is
set_flow_setpoint, so the attribute lookup self.dry_mfc.set_flow in
Controller.set_flow_rates raises AttributeError before any write. -/
def mfc_set_flow (inst : Option InstrBehavior) (value : ℚ) : Except PyExn Bool :=
  .error .attributeError

/-- DewMaster serial state for one cycle: whether the port is open, and
the lines read within the one-second poll window. -/
structure HygState where
  isOpen : Bool
  lines : List String

/-- DewMaster.poll: the P write raises RuntimeError if the port is not
open; otherwise the window's lines are scanned for the first match. -/
def hyg_poll (h : HygState) : Except PyExn (Option (List (String × PyVal))) :=
  if h.isOpen then pollLines h.lines else .error .runtimeError

/-- Modelled from the spec: DewMasterHygrometer (imported by
controller.py from src.devices.dewmaster) is absent from src/; per
spec 4.4 its read entry point get_readings returns the poll parse
result of the DewMaster protocol, channels or none. -/
def hyg_get_readings (h : HygState) : Except PyExn (Option (List (String × PyVal))) :=
  hyg_poll h

/-! ## Controller: connect_devices -/

/-- The four optional devices, in the order connect_devices tries them. -/
inductive DeviceName where
  | dry
  | wet
  | hyg
  | tprobe
  deriving DecidableEq, Repr

/-- The connect environment: for each device, none when its port is not
configured, and otherwise whether opening its serial transport
succeeds. -/
structure ConnectEnv where
  dryCfg : Option Bool
  wetCfg : Option Bool
  hygCfg : Option Bool
  tprobeCfg : Option Bool

/-- VogtlinMFC.connect: returns True on success and False on an
exception while opening and configuring the instrument; it never
raises. -/
def vogtlin_connect (openOk : Bool) : Bool :=
  openOk

/-- DewMaster.connect: returns True on success, but on failure raises
RuntimeError instead of returning False. -/
def dewmaster_connect (openOk : Bool) : Except PyExn Bool :=
  if openOk then .ok true else .error .runtimeError

/-- Modelled from the spec: TemperatureProbe
(src/src/devices/temperature_probe.py) is absent from src/; per spec
4.5 and 7 its connect has the shared driver contract, reporting
connection failure per device as False without raising. -/
def tprobe_connect (openOk : Bool) : Bool :=
  openOk

/-- Controller.connect_devices: tries each configured device in order,
accumulating the overall success flag; also records which devices were
attempted.  A raised connect exception propagates, skipping the
remaining devices. -/
def connect_devices (env : ConnectEnv) : List DeviceName × Except PyExn Bool :=
  let s0 : List DeviceName × Bool :=
    match env.dryCfg with
    | none => ([], true)
    | some ok => ([.dry], vogtlin_connect ok)
  let s1 : List DeviceName × Bool :=
    match env.wetCfg with
    | none => s0
    | some ok => (s0.1 ++ [.wet], s0.2 && vogtlin_connect ok)
  match env.hygCfg with
  | none =>
    match env.tprobeCfg with
    | none => (s1.1, .ok s1.2)
    | some ok => (s1.1 ++ [.tprobe], .ok (s1.2 && tprobe_connect ok))
  | some ok =>
    match dewmaster_connect ok with
    | .error e => (s1.1 ++ [.hyg], .error e)
    | .ok b =>
      let s2 : List DeviceName × Bool := (s1.1 ++ [.hyg], s1.2 && b)
      match env.tprobeCfg with
      | none => (s2.1, .ok s2.2)
      | some ok2 => (s2.1 ++ [.tprobe], .ok (s2.2 && tprobe_connect ok2))

/-- The devices connect_devices would attempt if nothing raised. -/
def configured_devices (env : ConnectEnv) : List DeviceName :=
  (match env.dryCfg with | some _ => [DeviceName.dry] | none => [])
    ++ (match env.wetCfg with | some _ => [DeviceName.wet] | none => [])
    ++ (match env.hygCfg with | some _ => [DeviceName.hyg] | none => [])
    ++ (match env.tprobeCfg with | some _ => [DeviceName.tprobe] | none => [])

/-- True when every configured device's transport opens successfully. -/
def all_connected (env : ConnectEnv) : Bool :=
  env.dryCfg.getD true && env.wetCfg.getD true
    && env.hygCfg.getD true && env.tprobeCfg.getD true

/-! ## Controller: read_all_sensors and the monitoring loop -/

/-- One merged per-cycle record, as the data dict of read_all_sensors:
a timestamp and eight optional channels, each initialized to None. -/
structure Reading where
  timestamp : String
  dry_flow : Option PyVal
  dry_setpoint : Option PyVal
  wet_flow : Option PyVal
  wet_setpoint : Option PyVal
  cell_temp : Option PyVal
  ambient_temp : Option PyVal
  dewpoint_temp : Option PyVal
  relative_humidity : Option PyVal
  deriving DecidableEq, Repr

/-- The fresh data dict at the top of read_all_sensors: every channel
explicitly None. -/
def emptyReading (now : String) : Reading :=
  ⟨now, none, none, none, none, none, none, none, none⟩

/-- The cycle environment of one read_all_sensors call: for each device
attribute, none when never configured; an MFC carries its optional
instrument (None when connect failed) with this cycle's responses. -/
structure CycleEnv where
  dry_mfc : Option (Option InstrBehavior)
  wet_mfc : Option (Option InstrBehavior)
  hygrometer : Option HygState
  t_probe : Bool

/-- dict.get on the parsed-telemetry dict. -/
def dictGet (d : List (String × PyVal)) (k : String) : Option PyVal :=
  match d.find? (fun p => p.1 == k) with
  | some p => some p.2
  | none => none

/-- The dry-MFC stage of read_all_sensors: get_flow then get_setpoint,
a raised exception propagating. -/
def applyDry (m : Option (Option InstrBehavior)) (d : Reading) : Except PyExn Reading :=
  match m with
  | none => .ok d
  | some inst =>
    match mfc_get_flow inst with
    | .error e => .error e
    | .ok f =>
      match mfc_get_setpoint inst with
      | .error e => .error e
      | .ok s => .ok { d with dry_flow := some (.num f), dry_setpoint := some (.num s) }

/-- The wet-MFC stage of read_all_sensors. -/
def applyWet (m : Option (Option InstrBehavior)) (d : Reading) : Except PyExn Reading :=
  match m with
  | none => .ok d
  | some inst =>
    match mfc_get_flow inst with
    | .error e => .error e
    | .ok f =>
      match mfc_get_setpoint inst with
      | .error e => .error e
      | .ok s => .ok { d with wet_flow := some (.num f), wet_setpoint := some (.num s) }

/-- The hygrometer stage of read_all_sensors: a truthy readings dict
has its dewpoint, ambient and humidity keys looked up with dict.get. -/
def applyHyg (h : Option HygState) (d : Reading) : Except PyExn Reading :=
  match h with
  | none => .ok d
  | some hs =>
    match hyg_get_readings hs with
    | .error e => .error e
    | .ok none => .ok d
    | .ok (some dict) =>
      if dict.isEmpty then .ok d
      else .ok { d with
        ambient_temp := dictGet dict "ambient_temp",
        dewpoint_temp := dictGet dict "dewpoint_temp",
        relative_humidity := dictGet dict "relative_humidity" }

/-- The temperature-probe stage: when t_probe is set, the code reads
the never-assigned attribute self.T_probe, raising AttributeError. -/
def applyTprobe (configured : Bool) (d : Reading) : Except PyExn Reading :=
  if configured then .error .attributeError else .ok d

/-- read_all_sensors up to (and excluding) the temperature-probe line. -/
def read_sensors_body (env : CycleEnv) (now : String) : Except PyExn Reading :=
  ((applyDry env.dry_mfc (emptyReading now)).bind (applyWet env.wet_mfc)).bind
    (applyHyg env.hygrometer)

/-- Controller.read_all_sensors: the fresh dict filled in device order,
any raised device exception propagating to the caller. -/
def read_all_sensors (env : CycleEnv) (now : String) : Except PyExn Reading :=
  (read_sensors_body env now).bind (applyTprobe env.t_probe)

/-- Formatting one channel with a float format spec in the per-cycle
console display: None raises TypeError, a string ValueError. -/
def fmtFloat (v : Option PyVal) : Except PyExn Unit :=
  match v with
  | none => .error .typeError
  | some (.str _) => .error .valueError
  | some (.num _) => .ok ()

/-- The per-cycle print block of start_monitoring, formatting the seven
displayed channels in source order (cell_temp is not displayed). -/
def display_reading (r : Reading) : Except PyExn Unit :=
  (fmtFloat r.dry_flow).bind fun _ =>
    (fmtFloat r.dry_setpoint).bind fun _ =>
      (fmtFloat r.wet_flow).bind fun _ =>
        (fmtFloat r.wet_setpoint).bind fun _ =>
          (fmtFloat r.ambient_temp).bind fun _ =>
            (fmtFloat r.dewpoint_temp).bind fun _ =>
              fmtFloat r.relative_humidity

/-- The monitoring loop of start_monitoring over the given cycle
environments: each iteration reads all sensors, hands the Reading to
the logger and the plotter, then prints it.  The loop stops early when
an exception escapes an iteration (only KeyboardInterrupt is caught,
which is modelled as the end of the environment list); it returns the
readings that were logged and the escaped exception, if any. -/
def monitoring_loop : List (CycleEnv × String) → List Reading × Option PyExn
  | [] => ([], none)
  | (env, now) :: rest =>
    match read_all_sensors env now with
    | .error e => ([], some e)
    | .ok r =>
      match display_reading r with
      | .error e => ([r], some e)
      | .ok _ =>
        let t := monitoring_loop rest
        (r :: t.1, t.2)

/-- Controller.set_flow_rates: for each requested setpoint with a
configured controller, call the (nonexistent) set_flow method; the dry
branch runs first, a raised exception skipping the wet branch. -/
def set_flow_rates (dry wet : Option ℚ)
    (dryMfc wetMfc : Option (Option InstrBehavior)) : Except PyExn Unit :=
  let dryStep : Except PyExn Unit :=
    match dry, dryMfc with
    | some v, some inst => (mfc_set_flow inst v).map fun _ => ()
    | _, _ => .ok ()
  dryStep.bind fun _ =>
    match wet, wetMfc with
    | some v, some inst => (mfc_set_flow inst v).map fun _ => ()
    | _, _ => .ok ()

/-! ## Cycle timing (start_monitoring) -/

/-- The sleep the loop requests after a cycle: time.sleep(interval),
independent of that cycle's device-read latency. -/
def sleep_duration (interval latency : ℚ) : ℚ :=
  interval

/-- Start timestamps of consecutive monitoring cycles: each cycle takes
its device-read latency and then the requested sleep. -/
def cycle_start (interval : ℚ) (latency : ℕ → ℚ) : ℕ → ℚ
  | 0 => 0
  | n + 1 =>
    cycle_start interval latency n + latency n + sleep_duration interval (latency n)

/-! ## Concrete environments used in witnesses and counterexamples -/

/-- The literal acceptance line of the spec's testable properties. -/
def c4_line : String :=
  "11/13/25  13:41:50   DP =    2.0 C  AT  =   24.1 C  RH  =   23.5    SERVOLOCK"

/-- The parsed dict DewMaster.poll builds from the acceptance line. -/
def c4_dict : List (String × PyVal) :=
  [("date", .str "11/13/25"), ("time", .str "13:41:50"),
   ("dp", .num 2), ("at", .num (241 / 10)), ("rh", .num (47 / 2))]

/-- The acceptance line with its RH segment removed. -/
def c5_line : String :=
  "11/13/25  13:41:50   DP =    2.0 C  AT  =   24.1 C"

/-- An instrument whose every register read succeeds with 5.0. -/
def okInstr : InstrBehavior :=
  ⟨fun _ => .ok 5⟩

/-- An instrument whose every register read raises an I/O error. -/
def failInstr : InstrBehavior :=
  ⟨fun _ => .error .ioError⟩

/-- A cycle in which the dry MFC read fails while every other device
responds. -/
def envDryFail : CycleEnv :=
  ⟨some (some failInstr), some (some okInstr), some ⟨true, [c4_line]⟩, false⟩

/-- A cycle in which every configured device responds. -/
def envAllGood : CycleEnv :=
  ⟨some (some okInstr), some (some okInstr), some ⟨true, [c4_line]⟩, false⟩

/-- A cycle whose wet MFC is configured but disconnected (its connect
failed, leaving instrument as None). -/
def envWetDisconnected : CycleEnv :=
  ⟨some (some okInstr), some none, some ⟨true, [c4_line]⟩, false⟩

/-- Both MFC reads of one cycle environment succeed, and the device is
not in the configured-but-disconnected state. -/
def mfcReadsOk : Option (Option InstrBehavior) → Prop
  | none => True
  | some none => False
  | some (some b) =>
    (∃ q, b.readFloatAt REG_flow = .ok q) ∧ (∃ q, b.readFloatAt REG_setpoint = .ok q)

/-- A channel value that is either absent or a float. -/
def numOrNone (v : Option PyVal) : Prop :=
  v = none ∨ ∃ q, v = some (.num q)

/-- A cycle with no MFCs, no probe, and a hygrometer that parses the
acceptance line. -/
def envC9 : CycleEnv :=
  ⟨none, none, some ⟨true, [c4_line]⟩, false⟩

/-- A cycle with a working dry MFC and a configured temperature probe. -/
def envC10 : CycleEnv :=
  ⟨some (some okInstr), none, none, true⟩

/-- The Reading assembled before the temperature-probe line in envC10. -/
def readingC10 : Reading :=
  ⟨"t", some (.num 5), some (.num 5), none, none, none, none, none, none⟩

/-- A cycle with only a dry MFC responding and an empty hygrometer poll
window. -/
def envC7 : CycleEnv :=
  ⟨some (some okInstr), none, some ⟨true, []⟩, false⟩

/-- The Reading produced by envC7. -/
def readingC7 : Reading :=
  ⟨"t", some (.num 5), some (.num 5), none, none, none, none, none, none⟩

/-- A cycle with a responding dry MFC and a hygrometer whose poll
window yields no lines. -/
def envC1 : CycleEnv :=
  ⟨some (some okInstr), none, some ⟨true, []⟩, false⟩

end LabController

deriving instance DecidableEq for Except

namespace LabController

/-! ## Helper lemmas -/

theorem dropSpaces_suffix (cs : List Char) : dropSpaces cs <:+ cs := by
  induction cs with
  | nil => exact List.suffix_refl []
  | cons c cs ih =>
    unfold dropSpaces
    by_cases hc : isSpaceCh c
    · simpa [hc] using ih.trans (List.suffix_cons c cs)
    · simp [hc]

theorem expectChar_suffix (c : Char) (cs r : List Char)
    (h : expectChar c cs = some r) : r <:+ cs := by
  unfold expectChar at h
  split at h
  · exact absurd h (by simp)
  · split at h
    · obtain rfl := Option.some.inj h
      exact ⟨[_], rfl⟩
    · exact absurd h (by simp)

theorem takeSpaces1_suffix (cs r : List Char)
    (h : takeSpaces1 cs = some r) : r <:+ cs := by
  unfold takeSpaces1 at h
  split at h
  · exact absurd h (by simp)
  · split at h
    · obtain rfl := Option.some.inj h
      exact (dropSpaces_suffix _).trans ⟨[_], rfl⟩
    · exact absurd h (by simp)

theorem takeClass1_suffix (cs g r : List Char)
    (h : takeClass1 cs = some (g, r)) : r <:+ cs := by
  unfold takeClass1 at h
  split at h
  · exact absurd h (by simp)
  · have h2 : r = (cs.span isClassCh).2 :=
      (congrArg Prod.snd (Option.some.inj h)).symm
    rw [h2, List.span_eq_take_drop]
    exact List.dropWhile_suffix isClassCh

theorem matchLabelNum_suffix (l1 l2 : Char) (cs : List Char) (g : String)
    (r : List Char) (h : matchLabelNum l1 l2 cs = some (g, r)) : r <:+ cs := by
  unfold matchLabelNum at h
  simp only [Option.bind_eq_some, Option.map_eq_some'] at h
  obtain ⟨r1, h1, r2, h2, r4, h4, p, h6, hpair⟩ := h
  have hr : r = p.2 := (congrArg Prod.snd hpair).symm
  subst hr
  exact ((((takeClass1_suffix _ _ _ h6).trans (dropSpaces_suffix r4)).trans
    (expectChar_suffix _ _ _ h4)).trans (dropSpaces_suffix r2)).trans
    ((expectChar_suffix _ _ _ h2).trans (expectChar_suffix _ _ _ h1))

theorem matchNumC_suffix (l1 l2 : Char) (cs : List Char) (g : String)
    (r : List Char) (h : matchNumC l1 l2 cs = some (g, r)) : r <:+ cs := by
  unfold matchNumC at h
  simp only [Option.bind_eq_some, Option.map_eq_some'] at h
  obtain ⟨p, h1, r2, h2, hpair⟩ := h
  have hr : r = r2 := (congrArg Prod.snd hpair).symm
  subst hr
  exact ((expectChar_suffix _ _ _ h2).trans (dropSpaces_suffix p.2)).trans
    (matchLabelNum_suffix _ _ _ _ _ h1)

theorem matchDate_suffix (cs : List Char) (s : String) (r : List Char)
    (h : matchDate cs = some (s, r)) : r <:+ cs := by
  unfold matchDate at h
  split at h
  · split at h
    · have hr := (congrArg Prod.snd (Option.some.inj h)).symm
      subst hr
      exact ⟨[_, _, _, _, _, _, _, _], rfl⟩
    · exact absurd h (by simp)
  · exact absurd h (by simp)

theorem matchTime_suffix (cs : List Char) (s : String) (r : List Char)
    (h : matchTime cs = some (s, r)) : r <:+ cs := by
  unfold matchTime at h
  split at h
  · split at h
    · have hr := (congrArg Prod.snd (Option.some.inj h)).symm
      subst hr
      exact ⟨[_, _, _, _, _, _, _, _], rfl⟩
    · exact absurd h (by simp)
  · exact absurd h (by simp)

theorem hasLabeledField_of_match (l1 l2 : Char) (cs : List Char)
    (x : String × List Char) (h : matchLabelNum l1 l2 cs = some x) :
    hasLabeledField l1 l2 cs = true := by
  unfold hasLabeledField
  rw [List.any_eq_true]
  exact ⟨cs, (List.mem_tails cs cs).2 (List.suffix_refl cs), by simp [h]⟩

theorem hasLabeledField_mono (l1 l2 : Char) (r cs : List Char)
    (hsuf : r <:+ cs) (h : hasLabeledField l1 l2 r = true) :
    hasLabeledField l1 l2 cs = true := by
  unfold hasLabeledField at h ⊢
  rw [List.any_eq_true] at h ⊢
  obtain ⟨s, hs, hmatch⟩ := h
  exact ⟨s, (List.mem_tails s cs).2 (((List.mem_tails s r).1 hs).trans hsuf), hmatch⟩

theorem scanRH_has : ∀ cs : List Char, ∀ x, scanRH cs = some x →
    hasLabeledField 'R' 'H' cs = true := by
  intro cs
  induction cs with
  | nil => intro x h; simp [scanRH] at h
  | cons c cs ih =>
    intro x h
    unfold scanRH at h
    rcases hm : matchLabelNum 'R' 'H' (c :: cs) with _ | p
    · rw [hm] at h
      by_cases hc : c = '\n'
      · simp [hc] at h
      · simp only [hc, if_neg hc] at h
        exact hasLabeledField_mono _ _ _ _ ⟨[c], rfl⟩ (ih x h)
    · exact hasLabeledField_of_match _ _ _ _ hm

theorem tryAT_has (cs : List Char) (x : String × String) (h : tryAT cs = some x) :
    hasLabeledField 'A' 'T' cs = true ∧ hasLabeledField 'R' 'H' cs = true := by
  unfold tryAT at h
  simp only [Option.bind_eq_some, Option.map_eq_some'] at h
  obtain ⟨p, hp, rh, hrh, _⟩ := h
  have hAT : hasLabeledField 'A' 'T' cs = true := by
    unfold matchNumC at hp
    simp only [Option.bind_eq_some, Option.map_eq_some'] at hp
    obtain ⟨q, hq, _, _, _⟩ := hp
    exact hasLabeledField_of_match _ _ _ _ hq
  refine ⟨hAT, hasLabeledField_mono _ _ _ _ ?_ (scanRH_has _ _ hrh)⟩
  exact matchNumC_suffix _ _ _ _ _ (by rw [hp, Prod.mk.eta])

theorem scanAT_has : ∀ cs : List Char, ∀ x, scanAT cs = some x →
    hasLabeledField 'A' 'T' cs = true ∧ hasLabeledField 'R' 'H' cs = true := by
  intro cs
  induction cs with
  | nil => intro x h; simp [scanAT] at h
  | cons c cs ih =>
    intro x h
    unfold scanAT at h
    rcases hm : tryAT (c :: cs) with _ | p
    · rw [hm] at h
      by_cases hc : c = '\n'
      · simp [hc] at h
      · simp only [hc, if_neg hc] at h
        obtain ⟨h1, h2⟩ := ih x h
        exact ⟨hasLabeledField_mono _ _ _ _ ⟨[c], rfl⟩ h1,
          hasLabeledField_mono _ _ _ _ ⟨[c], rfl⟩ h2⟩
    · exact tryAT_has _ _ hm

theorem tryDP_has (cs : List Char) (x : String × String × String)
    (h : tryDP cs = some x) :
    hasLabeledField 'D' 'P' cs = true ∧ hasLabeledField 'A' 'T' cs = true
      ∧ hasLabeledField 'R' 'H' cs = true := by
  unfold tryDP at h
  simp only [Option.bind_eq_some, Option.map_eq_some'] at h
  obtain ⟨p, hp, q, hq, _⟩ := h
  have hDP : hasLabeledField 'D' 'P' cs = true := by
    unfold matchNumC at hp
    simp only [Option.bind_eq_some, Option.map_eq_some'] at hp
    obtain ⟨w, hw, _, _, _⟩ := hp
    exact hasLabeledField_of_match _ _ _ _ hw
  have hsuf : p.2 <:+ cs := matchNumC_suffix _ _ _ _ _ (by rw [hp, Prod.mk.eta])
  obtain ⟨h1, h2⟩ := scanAT_has _ _ hq
  exact ⟨hDP, hasLabeledField_mono _ _ _ _ hsuf h1,
    hasLabeledField_mono _ _ _ _ hsuf h2⟩

theorem scanDP_has : ∀ cs : List Char, ∀ x, scanDP cs = some x →
    hasLabeledField 'D' 'P' cs = true ∧ hasLabeledField 'A' 'T' cs = true
      ∧ hasLabeledField 'R' 'H' cs = true := by
  intro cs
  induction cs with
  | nil => intro x h; simp [scanDP] at h
  | cons c cs ih =>
    intro x h
    unfold scanDP at h
    rcases hm : tryDP (c :: cs) with _ | p
    · rw [hm] at h
      by_cases hc : c = '\n'
      · simp [hc] at h
      · simp only [hc, if_neg hc] at h
        obtain ⟨h1, h2, h3⟩ := ih x h
        exact ⟨hasLabeledField_mono _ _ _ _ ⟨[c], rfl⟩ h1,
          hasLabeledField_mono _ _ _ _ ⟨[c], rfl⟩ h2,
          hasLabeledField_mono _ _ _ _ ⟨[c], rfl⟩ h3⟩
    · exact tryDP_has _ _ hm

theorem matchFrom_has (cs : List Char) (g : RawGroups) (h : matchFrom cs = some g) :
    hasLabeledField 'D' 'P' cs = true ∧ hasLabeledField 'A' 'T' cs = true
      ∧ hasLabeledField 'R' 'H' cs = true := by
  unfold matchFrom at h
  simp only [Option.bind_eq_some, Option.map_eq_some'] at h
  obtain ⟨pd, hpd, r2, hr2, pt, hpt, q, hq, _⟩ := h
  have hsuf : pt.2 <:+ cs :=
    ((matchTime_suffix _ _ _ (by rw [hpt, Prod.mk.eta])).trans
      (takeSpaces1_suffix _ _ hr2)).trans
      (matchDate_suffix _ _ _ (by rw [hpd, Prod.mk.eta]))
  obtain ⟨h1, h2, h3⟩ := scanDP_has _ _ hq
  exact ⟨hasLabeledField_mono _ _ _ _ hsuf h1,
    hasLabeledField_mono _ _ _ _ hsuf h2,
    hasLabeledField_mono _ _ _ _ hsuf h3⟩

theorem searchTelem_has : ∀ cs : List Char, ∀ g, searchTelem cs = some g →
    hasLabeledField 'D' 'P' cs = true ∧ hasLabeledField 'A' 'T' cs = true
      ∧ hasLabeledField 'R' 'H' cs = true := by
  intro cs
  induction cs with
  | nil => intro g h; simp [searchTelem] at h
  | cons c cs ih =>
    intro g h
    unfold searchTelem at h
    rcases hm : matchFrom (c :: cs) with _ | g2
    · rw [hm] at h
      obtain ⟨h1, h2, h3⟩ := ih g h
      exact ⟨hasLabeledField_mono _ _ _ _ ⟨[c], rfl⟩ h1,
        hasLabeledField_mono _ _ _ _ ⟨[c], rfl⟩ h2,
        hasLabeledField_mono _ _ _ _ ⟨[c], rfl⟩ h3⟩
    · rw [hm] at h
      exact matchFrom_has _ _ hm

theorem pollDict_keys (g : RawGroups) (dict : List (String × PyVal))
    (h : pollDict g = .ok dict) :
    dictGet dict "ambient_temp" = none ∧ dictGet dict "dewpoint_temp" = none
      ∧ dictGet dict "relative_humidity" = none ∧ dict.isEmpty = false := by
  unfold pollDict at h
  rcases h1 : pyFloat g.dp with _ | dp <;> rw [h1] at h
  · exact absurd h (by simp)
  rcases h2 : pyFloat g.atv with _ | atv <;> rw [h2] at h
  · exact absurd h (by simp)
  rcases h3 : pyFloat g.rh with _ | rh <;> rw [h3] at h
  · exact absurd h (by simp)
  obtain rfl := Except.ok.inj h
  exact ⟨rfl, rfl, rfl, rfl⟩

theorem pollLines_keys : ∀ ls : List String, ∀ dict,
    pollLines ls = .ok (some dict) →
    dictGet dict "ambient_temp" = none ∧ dictGet dict "dewpoint_temp" = none
      ∧ dictGet dict "relative_humidity" = none ∧ dict.isEmpty = false := by
  intro ls
  induction ls with
  | nil => intro dict h; simp [pollLines] at h
  | cons l ls ih =>
    intro dict h
    unfold pollLines at h
    rcases hs : searchTelem l.toList with _ | g <;> simp only [hs] at h
    · exact ih dict h
    · rcases hd : pollDict g with e | d <;> rw [hd] at h
      · exact absurd h (by simp [Except.map])
      · have : d = dict := by
          simp only [Except.map, Except.ok.injEq, Option.some.injEq] at h
          exact h
        exact this ▸ pollDict_keys g d hd

theorem hyg_get_readings_keys (hs : HygState) (dict : List (String × PyVal))
    (h : hyg_get_readings hs = .ok (some dict)) :
    dictGet dict "ambient_temp" = none ∧ dictGet dict "dewpoint_temp" = none
      ∧ dictGet dict "relative_humidity" = none := by
  unfold hyg_get_readings hyg_poll at h
  split at h
  · obtain ⟨h1, h2, h3, _⟩ := pollLines_keys _ _ h
    exact ⟨h1, h2, h3⟩
  · exact absurd h (by simp)

theorem except_bind_ok {α β ε : Type} (x : α) (f : α → Except ε β) :
    Except.bind (.ok x) f = f x := rfl

theorem except_bind_error {α β ε : Type} (e : ε) (f : α → Except ε β) :
    (Except.bind (.error e) f : Except ε β) = .error e := rfl

theorem applyDry_ok_fields (m : Option (Option InstrBehavior)) (d d' : Reading)
    (h : applyDry m d = .ok d') :
    (d'.dry_flow = d.dry_flow ∨ ∃ q, d'.dry_flow = some (.num q))
      ∧ (d'.dry_setpoint = d.dry_setpoint ∨ ∃ q, d'.dry_setpoint = some (.num q))
      ∧ d'.wet_flow = d.wet_flow ∧ d'.wet_setpoint = d.wet_setpoint
      ∧ d'.cell_temp = d.cell_temp ∧ d'.ambient_temp = d.ambient_temp
      ∧ d'.dewpoint_temp = d.dewpoint_temp
      ∧ d'.relative_humidity = d.relative_humidity
      ∧ d'.timestamp = d.timestamp := by
  unfold applyDry at h
  split at h
  · obtain rfl := Except.ok.inj h
    exact ⟨Or.inl rfl, Or.inl rfl, rfl, rfl, rfl, rfl, rfl, rfl, rfl⟩
  · split at h
    · exact absurd h (by simp)
    · split at h
      · exact absurd h (by simp)
      · obtain rfl := Except.ok.inj h
        exact ⟨Or.inr ⟨_, rfl⟩, Or.inr ⟨_, rfl⟩, rfl, rfl, rfl, rfl, rfl, rfl, rfl⟩

theorem applyWet_ok_fields (m : Option (Option InstrBehavior)) (d d' : Reading)
    (h : applyWet m d = .ok d') :
    (d'.wet_flow = d.wet_flow ∨ ∃ q, d'.wet_flow = some (.num q))
      ∧ (d'.wet_setpoint = d.wet_setpoint ∨ ∃ q, d'.wet_setpoint = some (.num q))
      ∧ d'.dry_flow = d.dry_flow ∧ d'.dry_setpoint = d.dry_setpoint
      ∧ d'.cell_temp = d.cell_temp ∧ d'.ambient_temp = d.ambient_temp
      ∧ d'.dewpoint_temp = d.dewpoint_temp
      ∧ d'.relative_humidity = d.relative_humidity
      ∧ d'.timestamp = d.timestamp := by
  unfold applyWet at h
  split at h
  · obtain rfl := Except.ok.inj h
    exact ⟨Or.inl rfl, Or.inl rfl, rfl, rfl, rfl, rfl, rfl, rfl, rfl⟩
  · split at h
    · exact absurd h (by simp)
    · split at h
      · exact absurd h (by simp)
      · obtain rfl := Except.ok.inj h
        exact ⟨Or.inr ⟨_, rfl⟩, Or.inr ⟨_, rfl⟩, rfl, rfl, rfl, rfl, rfl, rfl, rfl⟩

theorem applyHyg_ok_fields (h : Option HygState) (d d' : Reading)
    (hok : applyHyg h d = .ok d') :
    (d'.ambient_temp = d.ambient_temp ∧ d'.dewpoint_temp = d.dewpoint_temp
        ∧ d'.relative_humidity = d.relative_humidity
      ∨ d'.ambient_temp = none ∧ d'.dewpoint_temp = none
        ∧ d'.relative_humidity = none)
      ∧ d'.dry_flow = d.dry_flow ∧ d'.dry_setpoint = d.dry_setpoint
      ∧ d'.wet_flow = d.wet_flow ∧ d'.wet_setpoint = d.wet_setpoint
      ∧ d'.cell_temp = d.cell_temp ∧ d'.timestamp = d.timestamp := by
  unfold applyHyg at hok
  split at hok
  · obtain rfl := Except.ok.inj hok
    exact ⟨Or.inl ⟨rfl, rfl, rfl⟩, rfl, rfl, rfl, rfl, rfl, rfl⟩
  · rename_i hs
    split at hok
    · exact absurd hok (by simp)
    · obtain rfl := Except.ok.inj hok
      exact ⟨Or.inl ⟨rfl, rfl, rfl⟩, rfl, rfl, rfl, rfl, rfl, rfl⟩
    · rename_i dict heq
      split at hok
      · obtain rfl := Except.ok.inj hok
        exact ⟨Or.inl ⟨rfl, rfl, rfl⟩, rfl, rfl, rfl, rfl, rfl, rfl⟩
      · obtain rfl := Except.ok.inj hok
        obtain ⟨k1, k2, k3⟩ := hyg_get_readings_keys hs dict heq
        exact ⟨Or.inr ⟨k1, k2, k3⟩, rfl, rfl, rfl, rfl, rfl, rfl⟩

theorem read_all_sensors_ok_cases (env : CycleEnv) (now : String) (r : Reading)
    (h : read_all_sensors env now = .ok r) :
    ∃ d1 d2, applyDry env.dry_mfc (emptyReading now) = .ok d1
      ∧ applyWet env.wet_mfc d1 = .ok d2
      ∧ applyHyg env.hygrometer d2 = .ok r
      ∧ env.t_probe = false := by
  unfold read_all_sensors at h
  rcases hb : read_sensors_body env now with e | d3 <;> rw [hb] at h
  · rw [except_bind_error] at h
    exact absurd h (by simp)
  rw [except_bind_ok] at h
  unfold read_sensors_body at hb
  rcases h1 : applyDry env.dry_mfc (emptyReading now) with e | d1 <;> rw [h1] at hb
  · rw [except_bind_error, except_bind_error] at hb
    exact absurd hb (by simp)
  rw [except_bind_ok] at hb
  rcases h2 : applyWet env.wet_mfc d1 with e | d2 <;> rw [h2] at hb
  · rw [except_bind_error] at hb
    exact absurd hb (by simp)
  rw [except_bind_ok] at hb
  unfold applyTprobe at h
  split at h
  · exact absurd h (by simp)
  · rename_i ht
    obtain rfl := Except.ok.inj h
    exact ⟨d1, d2, rfl, h2, hb, by simpa using ht⟩

theorem display_reading_typeError (r : Reading)
    (h1 : numOrNone r.dry_flow) (h2 : numOrNone r.dry_setpoint)
    (h3 : numOrNone r.wet_flow) (h4 : numOrNone r.wet_setpoint)
    (ha : r.ambient_temp = none) :
    display_reading r = .error .typeError := by
  unfold display_reading
  rcases h1 with h1 | ⟨q1, h1⟩ <;> rcases h2 with h2 | ⟨q2, h2⟩ <;>
    rcases h3 with h3 | ⟨q3, h3⟩ <;> rcases h4 with h4 | ⟨q4, h4⟩ <;>
    rw [h1, h2, h3, h4, ha] <;> rfl

/-! ## Claim theorems -/

/-- C3: for every 32-bit float pattern (finite values, zero, negatives,
subnormals, and NaN or Infinity patterns alike) and each setting of the
swap flag, decoding the two 16-bit registers produced by encoding the
value yields it back exactly, bit for bit. -/
theorem C3_float_roundtrip (bits : ℕ) (swap : Bool) (h : bits < 2 ^ 32) :
    read_float_regs (write_float_regs bits swap) swap = bits := by
  cases swap <;>
    simp only [write_float_regs, read_float_regs, packBE32, unpackHH, packHH,
      unpackBE32, Bool.false_eq_true, if_false, if_true, reduceIte] <;>
    omega

/-- C3 witness: the round trip at a concrete NaN bit pattern with the
swap flag set. -/
theorem C3_float_roundtrip_witness :
    (0x7FC00001 : ℕ) < 2 ^ 32
      ∧ read_float_regs (write_float_regs 0x7FC00001 true) true = 0x7FC00001 :=
  ⟨by norm_num, C3_float_roundtrip 0x7FC00001 true (by norm_num)⟩

/-- C4: on the literal hygrometer line of the spec, the telemetry parse
succeeds with dewpoint 2.0, ambient temperature 24.1 and relative
humidity 23.5, tolerating the whitespace and the trailing SERVOLOCK
token. -/
theorem C4_parser_acceptance :
    searchTelem c4_line.toList
        = some ⟨"11/13/25", "13:41:50", "2.0", "24.1", "23.5"⟩
      ∧ pollLines [c4_line] = .ok (some c4_dict)
      ∧ dictGet c4_dict "dp" = some (.num 2)
      ∧ dictGet c4_dict "at" = some (.num (241 / 10))
      ∧ dictGet c4_dict "rh" = some (.num (47 / 2)) := by
  have hsearch : searchTelem c4_line.toList
      = some ⟨"11/13/25", "13:41:50", "2.0", "24.1", "23.5"⟩ := by decide
  have hdp : pyFloat "2.0" = some 2 := by
    have h0 : pyFloat "2.0" = some (((2 : ℕ) : ℚ) + ((0 : ℕ) : ℚ) / 10 ^ 1) := rfl
    rw [h0]
    norm_num
  have hat : pyFloat "24.1" = some (241 / 10) := by
    have h0 : pyFloat "24.1" = some (((24 : ℕ) : ℚ) + ((1 : ℕ) : ℚ) / 10 ^ 1) := rfl
    rw [h0]
    norm_num
  have hrh : pyFloat "23.5" = some (47 / 2) := by
    have h0 : pyFloat "23.5" = some (((23 : ℕ) : ℚ) + ((5 : ℕ) : ℚ) / 10 ^ 1) := rfl
    rw [h0]
    norm_num
  have hpd : pollDict ⟨"11/13/25", "13:41:50", "2.0", "24.1", "23.5"⟩
      = .ok c4_dict := by
    unfold pollDict
    dsimp only
    simp only [hdp, hat, hrh, c4_dict]
  refine ⟨hsearch, ?_, rfl, rfl, rfl⟩
  simp only [pollLines, hsearch, hpd, Except.map]

/-- C5: a line with no DP, no AT or no RH labeled field (in particular
one missing the RH segment) makes the telemetry parse return no match,
never a partial result or an exception. -/
theorem C5_missing_field_no_match (line : String)
    (h : hasLabeledField 'D' 'P' line.toList = false
       ∨ hasLabeledField 'A' 'T' line.toList = false
       ∨ hasLabeledField 'R' 'H' line.toList = false) :
    searchTelem line.toList = none ∧ pollLines [line] = .ok none := by
  have hnone : searchTelem line.toList = none := by
    rcases hst : searchTelem line.toList with _ | g
    · rfl
    · obtain ⟨h1, h2, h3⟩ := searchTelem_has _ _ hst
      rcases h with h | h | h
      · exact absurd (h1.symm.trans h) (by simp)
      · exact absurd (h2.symm.trans h) (by simp)
      · exact absurd (h3.symm.trans h) (by simp)
  exact ⟨hnone, by simp only [pollLines, hnone]⟩

/-- C5 witness: the acceptance line with its RH segment removed lacks
the RH field and the parse rejects it. -/
theorem C5_missing_field_witness :
    hasLabeledField 'R' 'H' c5_line.toList = false
      ∧ (searchTelem c5_line.toList = none ∧ pollLines [c5_line] = .ok none) :=
  ⟨by decide, C5_missing_field_no_match c5_line (Or.inr (Or.inr (by decide)))⟩

/-- C6: with both controllers configured and connected and both
setpoints requested, set_flow_rates raises AttributeError at the dry
step (VogtlinMFC defines set_flow_setpoint, not the set_flow the
Controller calls), so no per-controller result is reported and the wet
write is never attempted. -/
theorem C6_set_flow_rates_attribute_error :
    set_flow_rates (some 10) (some 20) (some (some okInstr)) (some (some okInstr))
      = .error .attributeError := rfl

theorem cycle_start_closed (interval : ℚ) (latency : ℕ → ℚ) :
    ∀ n, cycle_start interval latency n
      = n * interval + ∑ k in Finset.range n, latency k := by
  intro n
  induction n with
  | zero => simp [cycle_start]
  | succ m ih =>
    rw [cycle_start, ih, Finset.sum_range_succ]
    unfold sleep_duration
    push_cast
    ring

/-- C8 counterexample: with interval 5 and a constant device-read
latency of 1, consecutive cycle starts are 6 apart, not 5, and after
100 cycles the start time is 100 intervals plus 100 accumulated latency
units: the sleep does not compensate and the drift is cumulative. -/
theorem C8_cycle_timing_counterexample :
    cycle_start 5 (fun _ => 1) 2 - cycle_start 5 (fun _ => 1) 1 = 6
      ∧ ¬((6 : ℚ) = 5)
      ∧ cycle_start 5 (fun _ => 1) 100 = 100 * 5 + 100 := by
  refine ⟨?_, by norm_num, ?_⟩
  · rw [cycle_start_closed, cycle_start_closed]
    norm_num [Finset.sum_const, Finset.card_range]
  · rw [cycle_start_closed]
    norm_num [Finset.sum_const, Finset.card_range]

/-- C8 amended: each cycle sleeps the full configured interval
regardless of the time already spent reading, so consecutive cycle
starts are separated by the interval plus that cycle's read latency and
the latencies accumulate without bound across cycles. -/
theorem C8_amended_uncompensated_timing (interval : ℚ) (latency : ℕ → ℚ) (n : ℕ) :
    sleep_duration interval (latency n) = interval
      ∧ cycle_start interval latency (n + 1) - cycle_start interval latency n
          = interval + latency n
      ∧ cycle_start interval latency n
          = n * interval + ∑ k in Finset.range n, latency k := by
  refine ⟨rfl, ?_, cycle_start_closed interval latency n⟩
  rw [cycle_start_closed, cycle_start_closed, Finset.sum_range_succ]
  push_cast
  ring

/-- C2 counterexample: DewMaster.connect raises RuntimeError on failure
instead of returning false, so with the hygrometer port failing to open
the exception propagates out of connect_devices and the configured
temperature probe is never attempted. -/
theorem C2_connect_counterexample :
    dewmaster_connect false = .error .runtimeError
      ∧ connect_devices ⟨some true, none, some false, some true⟩
          = ([DeviceName.dry, DeviceName.hyg], .error .runtimeError)
      ∧ DeviceName.tprobe ∉ (connect_devices ⟨some true, none, some false, some true⟩).1 :=
  ⟨rfl, rfl, by decide⟩

/-- C2 amended: the MFC and temperature-probe drivers report connect
failure by returning false without raising, an individual failure does
not prevent attempting the remaining configured drivers, and
connect_devices returns true exactly when every configured device
connected, provided no configured hygrometer fails to open; a
hygrometer open failure instead raises out of connect_devices. -/
theorem C2_amended_connect (env : ConnectEnv) (h : env.hygCfg ≠ some false) :
    connect_devices env = (configured_devices env, .ok (all_connected env)) := by
  obtain ⟨d, w, hy, t⟩ := env
  have hy2 : hy = none ∨ hy = some true := by
    rcases hy with _ | b
    · exact Or.inl rfl
    · rcases b with _ | _
      · exact absurd rfl h
      · exact Or.inr rfl
  rcases d with _ | db <;> rcases w with _ | wb <;> rcases t with _ | tb <;>
    rcases hy2 with rfl | rfl <;>
    simp [connect_devices, configured_devices, all_connected, vogtlin_connect,
      dewmaster_connect, tprobe_connect, Bool.and_assoc]

/-- C2 witness: with a failing dry MFC and successful wet MFC,
hygrometer and probe, every configured device is attempted and the
overall result is false. -/
theorem C2_amended_connect_witness :
    connect_devices ⟨some false, some true, some true, some false⟩
      = ([DeviceName.dry, DeviceName.wet, DeviceName.hyg, DeviceName.tprobe],
         .ok false) := by
  rw [C2_amended_connect ⟨some false, some true, some true, some false⟩ (by decide)]
  rfl

/-- C9: the keys of a successful hygrometer poll (date, time, dp, at,
rh) are not the keys the orchestrator looks up, so in every cycle whose
read completes — including one with a successfully parsed line — the
dewpoint, ambient-temperature and relative-humidity channels of the
Reading are the absent marker. -/
theorem C9_hygrometer_keys_mismatch (env : CycleEnv) (now : String) (r : Reading)
    (h : read_all_sensors env now = .ok r) :
    r.ambient_temp = none ∧ r.dewpoint_temp = none
      ∧ r.relative_humidity = none := by
  obtain ⟨d1, d2, h1, h2, h3, _⟩ := read_all_sensors_ok_cases env now r h
  obtain ⟨_, _, _, _, _, ha1, hd1, hr1, _⟩ := applyDry_ok_fields _ _ _ h1
  obtain ⟨_, _, _, _, _, ha2, hd2, hr2, _⟩ := applyWet_ok_fields _ _ _ h2
  obtain ⟨hcase, _⟩ := applyHyg_ok_fields _ _ _ h3
  rcases hcase with ⟨ha3, hd3, hr3⟩ | ⟨ha3, hd3, hr3⟩
  · exact ⟨ha3.trans (ha2.trans ha1), hd3.trans (hd2.trans hd1),
      hr3.trans (hr2.trans hr1)⟩
  · exact ⟨ha3, hd3, hr3⟩

/-- C9 witness: a cycle whose hygrometer parses the acceptance line
still produces a Reading with the three channels absent. -/
theorem C9_hygrometer_keys_mismatch_witness :
    (emptyReading "t").ambient_temp = none
      ∧ (emptyReading "t").dewpoint_temp = none
      ∧ (emptyReading "t").relative_humidity = none :=
  C9_hygrometer_keys_mismatch envC9 "t" (emptyReading "t") (by decide)

/-- C10: whenever a temperature probe is configured, read_all_sensors
never returns a Reading; when every earlier device read succeeds it
raises AttributeError at the never-assigned T_probe attribute. -/
theorem C10_t_probe_attribute_error (env : CycleEnv) (now : String)
    (h : env.t_probe = true) :
    (∀ r, read_all_sensors env now ≠ .ok r)
      ∧ (∀ d, read_sensors_body env now = .ok d →
          read_all_sensors env now = .error .attributeError) := by
  constructor
  · intro r hr
    obtain ⟨_, _, _, _, _, ht⟩ := read_all_sensors_ok_cases env now r hr
    rw [h] at ht
    cases ht
  · intro d hd
    unfold read_all_sensors
    rw [hd, except_bind_ok]
    simp [applyTprobe, h]

/-- C10 witness: a cycle with a working dry MFC and a configured
temperature probe raises AttributeError. -/
theorem C10_t_probe_attribute_error_witness :
    read_all_sensors envC10 "t" = .error .attributeError :=
  (C10_t_probe_attribute_error envC10 "t" rfl).2 readingC10 (by decide)

/-- C7 counterexample: with the wet MFC configured but disconnected
(its instrument still None after a failed connect), read_all_sensors
raises AttributeError instead of returning a Reading with the wet
channels absent. -/
theorem C7_absent_marker_counterexample :
    read_all_sensors envWetDisconnected "t" = .error .attributeError
      ∧ ∀ r, read_all_sensors envWetDisconnected "t" ≠ .ok r := by
  have h : read_all_sensors envWetDisconnected "t" = .error .attributeError := by
    decide
  refine ⟨h, fun r hr => ?_⟩
  rw [h] at hr
  exact absurd hr (by simp)

/-- C7 amended: every Reading that read_all_sensors returns is created
fresh with this cycle's timestamp; channels of unconfigured devices and
the never-populated cell temperature are the explicit absent marker,
never zero or a stale value, and an unconfigured hygrometer leaves its
three channels absent; but a configured device whose read fails makes
read_all_sensors raise instead of marking channels absent. -/
theorem C7_amended_absent_channels (env : CycleEnv) (now : String) (r : Reading)
    (h : read_all_sensors env now = .ok r) :
    r.timestamp = now
      ∧ (env.dry_mfc = none → r.dry_flow = none ∧ r.dry_setpoint = none)
      ∧ (env.wet_mfc = none → r.wet_flow = none ∧ r.wet_setpoint = none)
      ∧ r.cell_temp = none
      ∧ (env.hygrometer = none →
          r.ambient_temp = none ∧ r.dewpoint_temp = none
            ∧ r.relative_humidity = none) := by
  obtain ⟨d1, d2, h1, h2, h3, _⟩ := read_all_sensors_ok_cases env now r h
  obtain ⟨df1, ds1, wf1, ws1, ct1, at1, dt1, rh1, ts1⟩ := applyDry_ok_fields _ _ _ h1
  obtain ⟨wf2, ws2, df2, ds2, ct2, at2, dt2, rh2, ts2⟩ := applyWet_ok_fields _ _ _ h2
  obtain ⟨hyg3, df3, ds3, wf3, ws3, ct3, ts3⟩ := applyHyg_ok_fields _ _ _ h3
  refine ⟨ts3.trans (ts2.trans ts1), ?_, ?_, ct3.trans (ct2.trans ct1), ?_⟩
  · intro hm
    rw [hm] at h1
    obtain rfl := Except.ok.inj h1
    exact ⟨df3.trans df2, ds3.trans ds2⟩
  · intro hm
    rw [hm] at h2
    obtain rfl := Except.ok.inj h2
    exact ⟨wf3.trans wf1, ws3.trans ws1⟩
  · intro hm
    rw [hm] at h3
    obtain rfl := Except.ok.inj h3
    exact ⟨at2.trans at1, dt2.trans dt1, rh2.trans rh1⟩

/-- C7 witness: with only the dry MFC configured and responding and a
hygrometer window with no lines, the Reading is fresh with every other
channel absent. -/
theorem C7_amended_absent_channels_witness :
    readingC7.timestamp = "t"
      ∧ (envC7.wet_mfc = none → readingC7.wet_flow = none
          ∧ readingC7.wet_setpoint = none)
      ∧ readingC7.cell_temp = none := by
  obtain ⟨a, b, c, d, e⟩ := C7_amended_absent_channels envC7 "t" readingC7 (by decide)
  exact ⟨a, c, d⟩

/-- C1 counterexample: a failing dry-MFC read makes read_all_sensors
raise instead of returning a Reading, and the monitoring loop aborts at
once: nothing is logged and the following cycle never runs. -/
theorem C1_read_failure_counterexample :
    read_all_sensors envDryFail "t1" = .error .ioError
      ∧ monitoring_loop [(envDryFail, "t1"), (envAllGood, "t2")]
          = ([], some .ioError) :=
  ⟨rfl, rfl⟩

/-- C1 amended: only a hygrometer cycle failure (no parsable line) is
tolerated — its channels are absent and the Reading is still assembled,
logged and plotted; a failing MFC read raises out of read_all_sensors
and aborts the session; and even the tolerated cycle aborts the session
at the per-cycle console display, after logging, because the absent
channel cannot be formatted. -/
theorem C1_amended_only_hygrometer_tolerated (env : CycleEnv) (now : String)
    (hs : HygState) (hT : env.t_probe = false) (hH : env.hygrometer = some hs)
    (hNoParse : hyg_get_readings hs = .ok none)
    (hDry : mfcReadsOk env.dry_mfc) (hWet : mfcReadsOk env.wet_mfc) :
    ∃ r, read_all_sensors env now = .ok r
      ∧ r.ambient_temp = none ∧ r.dewpoint_temp = none
      ∧ r.relative_humidity = none
      ∧ monitoring_loop [(env, now)] = ([r], some .typeError) := by
  obtain ⟨d1, h1⟩ : ∃ d1, applyDry env.dry_mfc (emptyReading now) = .ok d1 := by
    rcases hm : env.dry_mfc with _ | inst
    · exact ⟨_, rfl⟩
    · rw [hm] at hDry
      rcases inst with _ | b
      · exact absurd hDry (by simp [mfcReadsOk])
      · obtain ⟨⟨q1, hq1⟩, ⟨q2, hq2⟩⟩ := hDry
        refine ⟨{ emptyReading now with
          dry_flow := some (.num q1), dry_setpoint := some (.num q2) }, ?_⟩
        simp only [applyDry, mfc_get_flow, mfc_get_setpoint, mfc_read_float,
          hq1, hq2]
  obtain ⟨d2, h2⟩ : ∃ d2, applyWet env.wet_mfc d1 = .ok d2 := by
    rcases hm : env.wet_mfc with _ | inst
    · exact ⟨_, rfl⟩
    · rw [hm] at hWet
      rcases inst with _ | b
      · exact absurd hWet (by simp [mfcReadsOk])
      · obtain ⟨⟨q1, hq1⟩, ⟨q2, hq2⟩⟩ := hWet
        refine ⟨{ d1 with
          wet_flow := some (.num q1), wet_setpoint := some (.num q2) }, ?_⟩
        simp only [applyWet, mfc_get_flow, mfc_get_setpoint, mfc_read_float,
          hq1, hq2]
  have h3 : applyHyg env.hygrometer d2 = .ok d2 := by
    rw [hH]
    simp only [applyHyg, hNoParse]
  have hread : read_all_sensors env now = .ok d2 := by
    unfold read_all_sensors read_sensors_body
    rw [h1, except_bind_ok, h2, except_bind_ok, h3, except_bind_ok]
    simp [applyTprobe, hT]
  obtain ⟨df1, ds1, wf1, ws1, ct1, at1, dt1, rh1, ts1⟩ := applyDry_ok_fields _ _ _ h1
  obtain ⟨wf2, ws2, df2, ds2, ct2, at2, dt2, rh2, ts2⟩ := applyWet_ok_fields _ _ _ h2
  have hamb : d2.ambient_temp = none := at2.trans at1
  have hdew : d2.dewpoint_temp = none := dt2.trans dt1
  have hrh : d2.relative_humidity = none := rh2.trans rh1
  have hnn1 : numOrNone d2.dry_flow := by
    rw [df2]
    rcases df1 with hdf | ⟨q, hdf⟩
    · exact Or.inl hdf
    · exact Or.inr ⟨q, hdf⟩
  have hnn2 : numOrNone d2.dry_setpoint := by
    rw [ds2]
    rcases ds1 with hds | ⟨q, hds⟩
    · exact Or.inl hds
    · exact Or.inr ⟨q, hds⟩
  have hnn3 : numOrNone d2.wet_flow := by
    rcases wf2 with hwf | ⟨q, hwf⟩
    · rw [hwf, wf1]
      exact Or.inl rfl
    · exact Or.inr ⟨q, hwf⟩
  have hnn4 : numOrNone d2.wet_setpoint := by
    rcases ws2 with hws | ⟨q, hws⟩
    · rw [hws, ws1]
      exact Or.inl rfl
    · exact Or.inr ⟨q, hws⟩
  have hdisp := display_reading_typeError d2 hnn1 hnn2 hnn3 hnn4 hamb
  refine ⟨d2, hread, hamb, hdew, hrh, ?_⟩
  simp only [monitoring_loop, hread, hdisp]

/-- C1 witness: a cycle with a responding dry MFC and a hygrometer
whose poll window has no lines is read, logged and plotted with absent
hygrometer channels, and the session then aborts at the display. -/
theorem C1_amended_only_hygrometer_tolerated_witness :
    ∃ r, read_all_sensors envC1 "t" = .ok r
      ∧ r.ambient_temp = none ∧ r.dewpoint_temp = none
      ∧ r.relative_humidity = none
      ∧ monitoring_loop [(envC1, "t")] = ([r], some .typeError) :=
  C1_amended_only_hygrometer_tolerated envC1 "t" ⟨true, []⟩ rfl rfl rfl
    ⟨⟨5, rfl⟩, ⟨5, rfl⟩⟩ trivial

end LabController
